import Mathlib

/-
Verification of the EchoVid backend (src/server.js) against its specification.

The repository holds three near-duplicate variants of the same Express server
in one file, separated by document markers:
  variant 1 (lines 1-240):    CI-collation signup check, plaintext password
                              compare with trim/lowercase, 401 on login failure,
                              upload sets BlobURL content type and UploadedAt,
                              getComments/getRatings endpoints present;
  variant 2 (lines 241-413):  bcrypt hashing, no duplicate-email check,
                              400 on login failure, upload inserts no
                              UploadedAt column;
  variant 3 (lines 414-626):  signup/login as variant 1, upload inserts no
                              UploadedAt column (as variant 2).

This file embeds the handlers of variants 1 and 2 (variant 3 coincides with
variant 1 on signup/login/auth and with variant 2 on the upload insert).
JavaScript strings are Lean `String`s; the relational store and the blob store
are explicit lists of rows; `GETDATE()` is a `now : Nat` parameter threaded in;
a query or storage call that can throw is given an injected success flag.
-/

namespace EchoVid

/-- Model of JavaScript `String.prototype.toLowerCase()` (used as
`email.toLowerCase()` in the handlers) and of the case-folding performed by
the `Latin1_General_CI_AS` collation in the SQL queries. -/
def lowerStr (s : String) : String := ⟨s.data.map Char.toLower⟩

/-- Model of JavaScript `String.prototype.trim()` (used as `email.trim()`
and `password.trim()` in the variant-1 login handler). -/
def trimStr (s : String) : String :=
  ⟨((s.data.dropWhile Char.isWhitespace).reverse.dropWhile Char.isWhitespace).reverse⟩

/-- Helper for `splitSp`: splits a character list at every space. -/
def splitSpAux : List Char → List Char → List String
  | [], acc => [⟨acc.reverse⟩]
  | c :: cs, acc =>
    if c = ' ' then (⟨acc.reverse⟩ : String) :: splitSpAux cs []
    else splitSpAux cs (c :: acc)

/-- Model of JavaScript `header.split(" ")` in the auth middleware. -/
def splitSp (s : String) : List String := splitSpAux s.data []

/-- Model of the SQL comparison `Email COLLATE Latin1_General_CI_AS = @Email`:
case-insensitive string equality. -/
def ciEq (a b : String) : Bool := lowerStr a == lowerStr b

/-- The payload `jwt.sign({ id, role }, ...)` puts in a token, together with
the expiry claim added by `expiresIn: "1h"`. -/
structure JwtClaims where
  id : Nat
  role : String
  exp : Nat
deriving DecidableEq, Repr

/-- Modelled from the spec: the HMAC signature computed by the `jsonwebtoken`
library (library code, not in src/), as an ideal MAC — the signature is
determined by, and determines, the signing key and the signed claims. -/
structure JwtSig where
  key : String
  signed : JwtClaims
deriving DecidableEq, Repr

/-- A structurally well-formed token: claims plus signature. A raw incoming
token that may be malformed is an `Option JwtToken`, with `none` standing for
any string `jwt.verify` rejects as not being a token at all. -/
structure JwtToken where
  claims : JwtClaims
  sig : JwtSig
deriving DecidableEq, Repr

/-- The hardcoded process-wide secret (`const JWT_SECRET = "supersecretkey"`). -/
def JWT_SECRET : String := "supersecretkey"

/-- Modelled from the spec: `jwt.sign({ id, role }, key, { expiresIn: "1h" })`
at time `now` (seconds) — claims expire one hour (3600 s) after issuance. -/
def jwtSign (key : String) (now : Nat) (id : Nat) (role : String) : JwtToken :=
  ⟨⟨id, role, now + 3600⟩, ⟨key, ⟨id, role, now + 3600⟩⟩⟩

/-- Result of `jwt.verify`: the decoded claims, or a thrown error. -/
inductive JwtResult where
  | ok (claims : JwtClaims)
  | invalid
deriving DecidableEq, Repr

/-- Modelled from the spec: `jwt.verify(token, key)` at time `now` — throws
(`invalid`) on a malformed token, a signature not produced with `key` over
exactly the token's claims, or an elapsed expiry (`now ≥ exp`). -/
def jwtVerify (key : String) (now : Nat) (tok : Option JwtToken) : JwtResult :=
  match tok with
  | none => .invalid
  | some t =>
    if t.sig = (⟨key, t.claims⟩ : JwtSig) then
      if now < t.claims.exp then .ok t.claims else .invalid
    else .invalid

/-- Outcome of running a request through `auth(requiredRole)` and, when the
guard passes, the protected handler. `handled` records the decoded claims
attached as `req.user` together with the handler's result. -/
inductive GuardOutcome (α : Type) where
  | noToken
  | invalidToken
  | forbidden
  | handled (user : JwtClaims) (result : α)
deriving DecidableEq, Repr

/-- HTTP status of each guard outcome (`401` "No token", `401` "Invalid
token", `403` "Forbidden"; `200` when the handler ran and succeeded). -/
def guardStatus {α : Type} : GuardOutcome α → Nat
  | .noToken => 401
  | .invalidToken => 401
  | .forbidden => 403
  | .handled _ _ => 200

/-- The `auth(requiredRole)` middleware composed with a protected handler
(identical in all three variants). `decode` maps the raw token text found
after the first space of the authorization header to a structured token
(`none` when it is not one); `header` is the authorization header if present. -/
def auth {α : Type} (decode : String → Option JwtToken) (requiredRole : Option String)
    (now : Nat) (header : Option String) (handler : JwtClaims → α) : GuardOutcome α :=
  match header with
  | none => .noToken
  | some h =>
    match jwtVerify JWT_SECRET now (((splitSp h).get? 1).bind decode) with
    | .invalid => .invalidToken
    | .ok decoded =>
      match requiredRole with
      | some r => if decoded.role = r then .handled decoded (handler decoded) else .forbidden
      | none => .handled decoded (handler decoded)

/-- A row of the `Users` table. -/
structure UserRow where
  userID : Nat
  name : String
  email : String
  passwordHash : String
  role : String
deriving DecidableEq, Repr

/-- A row of the `Videos` table. `uploadedAt = none` models a NULL
`UploadedAt`, as left by the variant-2/3 upload inserts. -/
structure VideoRow where
  title : String
  publisher : String
  producer : String
  genre : String
  ageRating : String
  blobURL : String
  creatorID : Nat
  uploadedAt : Option Nat
deriving DecidableEq, Repr

/-- A row of the `Comments` table (`createdAt = none` models NULL). -/
structure CommentRow where
  videoID : Nat
  userID : Nat
  commentText : String
  createdAt : Option Nat
deriving DecidableEq, Repr

/-- A row of the `Ratings` table (`createdAt = none` models NULL). -/
structure RatingRow where
  videoID : Nat
  userID : Nat
  rating : Int
  createdAt : Option Nat
deriving DecidableEq, Repr

/-- The relational store. -/
structure DB where
  users : List UserRow
  videos : List VideoRow
  comments : List CommentRow
  ratings : List RatingRow
deriving DecidableEq, Repr

/-- An object in the blob container: object name, the locator
(`blockBlobClient.url`) under which it is addressable, and the content type
set on it (if any). -/
structure BlobRow where
  name : String
  url : String
  contentType : Option String
deriving DecidableEq, Repr

/-- Combined state of the two stores the upload path writes to. -/
structure Sys where
  db : DB
  blobs : List BlobRow
deriving DecidableEq, Repr

/-- Outcome of a signup request. -/
inductive SignupResult where
  | registered
  | conflict
deriving DecidableEq, Repr

/-- HTTP status of each signup outcome (`400` "Email already registered"). -/
def signupStatus : SignupResult → Nat
  | .registered => 200
  | .conflict => 400

/-- Variant-1 `/signup`: selects `Users` rows whose `Email` matches
`email.toLowerCase()` under CI collation; on a hit answers 400 and inserts
nothing, otherwise inserts one row with the lowercased email, the plaintext
password as `PasswordHash`, and role `"Consumer"`. -/
def signup_v1 (db : DB) (newId : Nat) (name email password : String) : SignupResult × DB :=
  if db.users.any (fun u => ciEq u.email (lowerStr email)) then
    (.conflict, db)
  else
    (.registered,
     { db with users := db.users ++ [⟨newId, name, lowerStr email, password, "Consumer"⟩] })

/-- Modelled from the spec: `bcryptjs.hash(password, 10)` (library code, not
in src/) as an ideal salted one-way representation that records the salt and
the hashed secret. -/
def bcryptHash (password salt : String) : String := "bcrypt$" ++ salt ++ "$" ++ password

/-- Modelled from the spec: `bcryptjs.compare(password, rep)` — succeeds
exactly on representations produced from `password`. -/
def bcryptCompare (password rep : String) : Bool :=
  ('$' :: password.data).isSuffixOf rep.data

/-- Variant-2 `/signup`: no duplicate check at all — hashes the password and
unconditionally inserts one `Users` row (email stored as given) with role
`"Consumer"`. -/
def signup_v2 (db : DB) (newId : Nat) (name email password salt : String) : SignupResult × DB :=
  (.registered,
   { db with users := db.users ++ [⟨newId, name, email, bcryptHash password salt, "Consumer"⟩] })

/-- Outcome of a login request, keeping the distinct failure answers of the
two variants apart. -/
inductive LoginResult where
  | ok (token : JwtToken) (role : String)
  | invalidCredentials
  | userNotFound
  | invalidPassword
deriving DecidableEq, Repr

/-- HTTP status of each login outcome: variant 1 answers 401 "Invalid
credentials"; variant 2 answers 400 "User not found" / 400 "Invalid password". -/
def loginStatus : LoginResult → Nat
  | .ok _ _ => 200
  | .invalidCredentials => 401
  | .userNotFound => 400
  | .invalidPassword => 400

/-- The key under which variant 1 compares emails: `email.trim().toLowerCase()`. -/
def emailKey (email : String) : String := lowerStr (trimStr email)

/-- The variant-1 login `WHERE` clause on one row: CI-collated email match
against the trimmed lowercased input and exact `PasswordHash` match against
the trimmed password. -/
def loginMatch_v1 (email password : String) (u : UserRow) : Bool :=
  ciEq u.email (emailKey email) && (u.passwordHash == trimStr password)

/-- Variant-1 `/login`: one query filters on email and password together;
an empty recordset answers 401, otherwise a token is signed over the first
matching row's `UserID` and `Role`. -/
def login_v1 (db : DB) (email password : String) (now : Nat) : LoginResult :=
  match db.users.find? (loginMatch_v1 email password) with
  | none => .invalidCredentials
  | some u => .ok (jwtSign JWT_SECRET now u.userID u.role) u.role

/-- Variant-2 `/login`: queries by email alone (the `Users.Email` column is a
case-insensitive key per the data model, so `Email=@Email` compares under CI
collation), answers 400 when no row matches, otherwise bcrypt-compares the
password against the first matching row and answers 400 on mismatch. -/
def login_v2 (db : DB) (email password : String) (now : Nat) : LoginResult :=
  match db.users.find? (fun u => ciEq u.email email) with
  | none => .userNotFound
  | some u =>
    if bcryptCompare password u.passwordHash then
      .ok (jwtSign JWT_SECRET now u.userID u.role) u.role
    else
      .invalidPassword

/-- Body of an upload request. -/
structure UploadReq where
  title : String
  publisher : String
  producer : String
  genre : String
  ageRating : String
  fileName : String
  fileContent : String
deriving DecidableEq, Repr

/-- The locator `blockBlobClient.url` of the object `fileName` in the
configured container: a stable address determined by the object name. -/
def blobUrlOf (fileName : String) : String :=
  "https://echovidstorage.blob.core.windows.net/videos/" ++ fileName

/-- Outcome of an upload request past the guard. -/
inductive UploadResult where
  | ok (url : String)
  | storageFailure
  | dbFailure
deriving DecidableEq, Repr

/-- HTTP status of each upload outcome (both failures land in the single
`catch` block, which answers 500). -/
def uploadStatus : UploadResult → Nat
  | .ok _ => 200
  | .storageFailure => 500
  | .dbFailure => 500

/-- Variant-1 `/upload` handler body, after `auth("Creator")` has attached
`user`: writes the blob (content type `video/mp4`), reads back its locator,
then inserts one `Videos` row with that locator, `req.user.id` as
`CreatorID` and `GETDATE()` as `UploadedAt`. `blobOk` / `dbOk` inject
whether `uploadData` / the `INSERT` throw; a throw anywhere lands in the
`catch` block with no further statements — in particular no compensating
blob delete. -/
def upload_v1 (sys : Sys) (user : JwtClaims) (req : UploadReq) (now : Nat)
    (blobOk dbOk : Bool) : UploadResult × Sys :=
  if !blobOk then
    (.storageFailure, sys)
  else
    let url := blobUrlOf req.fileName
    let sys1 : Sys := { sys with blobs := sys.blobs ++ [⟨req.fileName, url, some "video/mp4"⟩] }
    if !dbOk then
      (.dbFailure, sys1)
    else
      (.ok url,
       { sys1 with db := { sys1.db with videos := sys1.db.videos ++
          [⟨req.title, req.publisher, req.producer, req.genre, req.ageRating,
            url, user.id, some now⟩] } })

/-- Variant-2 `/upload` handler body: as variant 1 but `uploadData` sets no
content type and the `INSERT` names no `UploadedAt` column, leaving it NULL. -/
def upload_v2 (sys : Sys) (user : JwtClaims) (req : UploadReq) (_now : Nat)
    (blobOk dbOk : Bool) : UploadResult × Sys :=
  if !blobOk then
    (.storageFailure, sys)
  else
    let url := blobUrlOf req.fileName
    let sys1 : Sys := { sys with blobs := sys.blobs ++ [⟨req.fileName, url, none⟩] }
    if !dbOk then
      (.dbFailure, sys1)
    else
      (.ok url,
       { sys1 with db := { sys1.db with videos := sys1.db.videos ++
          [⟨req.title, req.publisher, req.producer, req.genre, req.ageRating,
            url, user.id, none⟩] } })

/-- SQL ordering key comparison with NULL as the lowest value (SQL Server:
NULLs sort last under `DESC`). -/
def tsLE (a b : Option Nat) : Bool :=
  match a, b with
  | none, _ => true
  | some _, none => false
  | some x, some y => x ≤ y

/-- Insertion step of the sort modelling `ORDER BY`. -/
def insertBy {α : Type} (le : α → α → Bool) (a : α) : List α → List α
  | [] => [a]
  | b :: bs => if le a b then a :: b :: bs else b :: insertBy le a bs

/-- Stable sort modelling SQL `ORDER BY` with comparison `le`. -/
def sortBy {α : Type} (le : α → α → Bool) : List α → List α
  | [] => []
  | a :: as => insertBy le a (sortBy le as)

/-- `GET /getVideos`: `SELECT * FROM Videos ORDER BY UploadedAt DESC`
(identical query in all three variants). -/
def getVideos (db : DB) : List VideoRow :=
  sortBy (fun a b => tsLE b.uploadedAt a.uploadedAt) db.videos

/-- One row of the `getComments` result set:
`SELECT c.CommentText, u.Name, c.CreatedAt`. -/
structure CommentView where
  commentText : String
  name : String
  createdAt : Option Nat
deriving DecidableEq, Repr

/-- The join underlying `getComments`: the video's comment rows inner-joined
to `Users` on `UserID`, before ordering. -/
def commentJoin (db : DB) (videoId : Nat) : List CommentView :=
  (db.comments.filter (fun c => c.videoID == videoId)).filterMap
    (fun c => (db.users.find? (fun u => u.userID == c.userID)).map
      (fun u => ⟨c.commentText, u.name, c.createdAt⟩))

/-- `GET /getComments/:videoId` (variant 1 only): the join, ordered by
`c.CreatedAt DESC`. -/
def getComments (db : DB) (videoId : Nat) : List CommentView :=
  sortBy (fun a b => tsLE b.createdAt a.createdAt) (commentJoin db videoId)

/-- The `getRatings` response row:
`AVG(Rating) AS AvgRating, COUNT(*) AS TotalRatings`. `avgRating = none`
models SQL NULL (serialized as JSON `null`). -/
structure RatingsView where
  avgRating : Option Int
  totalRatings : Nat
deriving DecidableEq, Repr

/-- The `Rating` values of the rows `WHERE VideoID=@VideoID` selects. -/
def ratingsOf (db : DB) (videoId : Nat) : List Int :=
  (db.ratings.filter (fun r => r.videoID == videoId)).map (fun r => r.rating)

/-- `GET /getRatings/:videoId` (variant 1 only): `AVG` over the INT column
`Rating` — integer average truncated toward zero (T-SQL `AVG(int)` returns
int), NULL over an empty set — and `COUNT(*)` over every selected row. -/
def getRatings (db : DB) (videoId : Nat) : RatingsView :=
  let rs := ratingsOf db videoId
  ⟨if rs.length == 0 then none else some (Int.tdiv rs.sum rs.length), rs.length⟩

/-- The `/getRatings` route: the aggregate query always yields exactly one
row, so a reachable database answers 200 with that row; only a thrown
database error (`dbOk = false`) lands in the `catch` block's 500. -/
def getRatingsRoute (db : DB) (videoId : Nat) (dbOk : Bool) : Nat × Option RatingsView :=
  if dbOk then (200, some (getRatings db videoId)) else (500, none)

/-- The empty database. -/
def emptyDB : DB := ⟨[], [], [], []⟩

/-- Empty combined store state. -/
def emptySys : Sys := ⟨emptyDB, []⟩

/-- Claims of a creator token, as decoded on a request. -/
def creatorClaims : JwtClaims := ⟨9, "Creator", 3600⟩

/-- A token issued at time 0 for a Consumer. -/
def consumerTok : JwtToken := jwtSign JWT_SECRET 0 7 "Consumer"

/-- A token issued at time 0 for a Creator. -/
def creatorTok : JwtToken := jwtSign JWT_SECRET 0 9 "Creator"

/-- A concrete upload request (video "A", object name `a.mp4`). -/
def reqA : UploadReq := ⟨"A", "pubA", "prodA", "gA", "PG", "a.mp4", "AAAA"⟩

/-- A concrete upload request (video "B", object name `b.mp4`). -/
def reqB : UploadReq := ⟨"B", "pubB", "prodB", "gB", "PG", "b.mp4", "BBBB"⟩

/-- Store state after a variant-1 upload at time 10 ("A") followed by a
variant-2 upload at time 20 ("B", whose row gets NULL `UploadedAt`). -/
def mixedSys : Sys :=
  (upload_v2 (upload_v1 emptySys creatorClaims reqA 10 true true).2
    creatorClaims reqB 20 true true).2

/-- A registered user. -/
def bobRow : UserRow := ⟨1, "Bob", "bob@x.com", "pw", "Consumer"⟩

/-- A database holding exactly the user `bobRow`. -/
def dbWithBob : DB := ⟨[bobRow], [], [], []⟩

/-- Ratings 3 and 4 for video 1, by two different users. -/
def ratingsDB34 : DB := ⟨[], [], [], [⟨1, 10, 3, some 1⟩, ⟨1, 11, 4, some 2⟩]⟩

/-- Ratings 3 and 5 for video 1, by two different users. -/
def ratingsDB35 : DB := ⟨[], [], [], [⟨1, 10, 3, some 1⟩, ⟨1, 11, 5, some 2⟩]⟩

/-! Helper lemmas about the `ORDER BY` model. -/

/-- Membership in an insertion step. -/
theorem mem_insertBy {α : Type} (le : α → α → Bool) (a x : α) :
    ∀ l : List α, x ∈ insertBy le a l ↔ x = a ∨ x ∈ l := by
  intro l
  induction l with
  | nil => simp [insertBy]
  | cons b bs ih =>
    cases hab : le a b with
    | true => simp [insertBy, hab]
    | false => simp [insertBy, hab, ih]; tauto

/-- An insertion step permutes the inserted element to the front. -/
theorem perm_insertBy {α : Type} (le : α → α → Bool) (a : α) :
    ∀ l : List α, (insertBy le a l).Perm (a :: l) := by
  intro l
  induction l with
  | nil => simp [insertBy]
  | cons b bs ih =>
    cases hab : le a b with
    | true => simp [insertBy, hab]
    | false =>
      simp only [insertBy, hab, Bool.false_eq_true, if_false]
      exact List.Perm.trans (List.Perm.cons b ih) (List.Perm.swap a b bs)

/-- The sort returns a permutation of its input. -/
theorem perm_sortBy {α : Type} (le : α → α → Bool) :
    ∀ l : List α, (sortBy le l).Perm l := by
  intro l
  induction l with
  | nil => simp [sortBy]
  | cons a as ih =>
    exact List.Perm.trans (perm_insertBy le a _) (List.Perm.cons a ih)

/-- Insertion preserves sortedness for a total transitive comparison. -/
theorem pairwise_insertBy {α : Type} {le : α → α → Bool}
    (htot : ∀ a b, le a b = true ∨ le b a = true)
    (htrans : ∀ a b c, le a b = true → le b c = true → le a c = true)
    (a : α) : ∀ l : List α, l.Pairwise (fun x y => le x y = true) →
      (insertBy le a l).Pairwise (fun x y => le x y = true) := by
  intro l
  induction l with
  | nil => intro _; simp [insertBy]
  | cons b bs ih =>
    intro hp
    rcases List.pairwise_cons.mp hp with ⟨hb, hbs⟩
    cases hab : le a b with
    | true =>
      simp only [insertBy, hab, if_true]
      refine List.pairwise_cons.mpr ⟨?_, hp⟩
      intro x hx
      rcases List.mem_cons.mp hx with hxb | hxbs
      · exact hxb ▸ hab
      · exact htrans a b x hab (hb x hxbs)
    | false =>
      simp only [insertBy, hab, Bool.false_eq_true, if_false]
      refine List.pairwise_cons.mpr ⟨?_, ih hbs⟩
      intro x hx
      rcases (mem_insertBy le a x bs).mp hx with hxa | hxbs
      · rcases htot a b with h1 | h1
        · exact absurd h1 (by simp [hab])
        · exact hxa ▸ h1
      · exact hb x hxbs

/-- The sort is sorted for a total transitive comparison. -/
theorem pairwise_sortBy {α : Type} {le : α → α → Bool}
    (htot : ∀ a b, le a b = true ∨ le b a = true)
    (htrans : ∀ a b c, le a b = true → le b c = true → le a c = true) :
    ∀ l : List α, (sortBy le l).Pairwise (fun x y => le x y = true) := by
  intro l
  induction l with
  | nil => simp [sortBy]
  | cons a as ih => exact pairwise_insertBy htot htrans a _ ih

/-- The NULL-lowest key comparison is total. -/
theorem tsLE_total (a b : Option Nat) : tsLE a b = true ∨ tsLE b a = true := by
  cases a <;> cases b <;> simp [tsLE]
  all_goals omega

/-- The NULL-lowest key comparison is transitive. -/
theorem tsLE_trans (a b c : Option Nat) :
    tsLE a b = true → tsLE b c = true → tsLE a c = true := by
  cases a <;> cases b <;> cases c <;> simp [tsLE]
  all_goals omega

/-- C1: the claim states that when the blob write succeeds and the metadata
insert then fails, the upload removes the orphaned blob before returning its
error. The handler does not: the whole body sits in one `try` block whose
`catch` only answers 500, so on an insert failure the state keeps the freshly
written blob (appended, never deleted) while the `Videos` table is untouched —
a blob object exists with no corresponding Video row. This theorem evaluates
the handler on exactly that failing input. -/
theorem C1_no_compensating_delete (sys : Sys) (user : JwtClaims) (req : UploadReq) (now : Nat) :
    upload_v1 sys user req now true false =
      (.dbFailure,
       { sys with blobs := sys.blobs ++
          [⟨req.fileName, blobUrlOf req.fileName, some "video/mp4"⟩] }) ∧
    uploadStatus .dbFailure = 500 := by
  exact ⟨rfl, rfl⟩

/-- C6: in every upload request the blob write runs before the metadata
write: a failed blob write returns the storage error with the state completely
unchanged (in particular no Video row is inserted, whatever the database would
have done), and whenever execution reaches the metadata step the blob has
already been appended to the blob store. -/
theorem C6_blob_write_first (sys : Sys) (user : JwtClaims) (req : UploadReq)
    (now : Nat) (dbOk : Bool) :
    upload_v1 sys user req now false dbOk = (.storageFailure, sys) ∧
    uploadStatus .storageFailure = 500 ∧
    (upload_v1 sys user req now true dbOk).2.blobs =
      sys.blobs ++ [⟨req.fileName, blobUrlOf req.fileName, some "video/mp4"⟩] := by
  refine ⟨rfl, rfl, ?_⟩
  cases dbOk <;> rfl

/-- C7: when the blob write and the metadata write both succeed, the inserted
Video row stores exactly the locator the blob store returned for the object
(`blockBlobClient.url`), the blob recorded in the store carries that same
locator, and the 200 response's `url` field equals it as well. -/
theorem C7_locator_consistency (sys : Sys) (user : JwtClaims) (req : UploadReq) (now : Nat) :
    upload_v1 sys user req now true true =
      (.ok (blobUrlOf req.fileName),
       ⟨⟨sys.db.users,
         sys.db.videos ++
           [⟨req.title, req.publisher, req.producer, req.genre, req.ageRating,
             blobUrlOf req.fileName, user.id, some now⟩],
         sys.db.comments, sys.db.ratings⟩,
        sys.blobs ++ [⟨req.fileName, blobUrlOf req.fileName, some "video/mp4"⟩]⟩) := by
  rfl

/-- C10: for a video with no rating rows the `/getRatings` route still
succeeds: the aggregate query yields its single row with `COUNT(*) = 0` and
`AVG(Rating) = NULL`, so the response is 200 with `totalRatings = 0` and
`avgRating = null` rather than an error or a number. -/
theorem C10_empty_ratings (db : DB) (videoId : Nat) :
    ratingsOf db videoId = [] →
    getRatingsRoute db videoId true = (200, some ⟨none, 0⟩) := by
  intro h
  simp [getRatingsRoute, getRatings, h]

/-- Witness for C10 at the empty database. -/
theorem C10_empty_ratings_witness :
    getRatingsRoute emptyDB 1 true = (200, some ⟨none, 0⟩) :=
  C10_empty_ratings emptyDB 1 (by decide)

/-- C2: on a guarded endpoint, a missing authorization header answers 401 and
the handler never runs (for every handler the outcome is `noToken`); a header
whose token fails validation answers 401 the same way; with a required role, a
validated token of a different role answers 403 and one of the required role
runs the handler with the decoded `{identity, role}` attached; concretely,
`auth("Creator")` as on `/upload` rejects a valid Consumer token with 403 and
accepts a valid Creator token, handing the handler the decoded claims. -/
theorem C2_guard :
    (∀ (α : Type) (decode : String → Option JwtToken) (requiredRole : Option String)
        (now : Nat) (handler : JwtClaims → α),
        auth decode requiredRole now none handler = .noToken ∧
        guardStatus (auth decode requiredRole now none handler) = 401) ∧
    (∀ (α : Type) (decode : String → Option JwtToken) (requiredRole : Option String)
        (now : Nat) (h : String) (handler : JwtClaims → α),
        jwtVerify JWT_SECRET now (((splitSp h).get? 1).bind decode) = .invalid →
        auth decode requiredRole now (some h) handler = .invalidToken ∧
        guardStatus (auth decode requiredRole now (some h) handler) = 401) ∧
    (∀ (α : Type) (decode : String → Option JwtToken) (r : String)
        (now : Nat) (h : String) (handler : JwtClaims → α) (c : JwtClaims),
        jwtVerify JWT_SECRET now (((splitSp h).get? 1).bind decode) = .ok c →
        c.role ≠ r →
        auth decode (some r) now (some h) handler = .forbidden ∧
        guardStatus (auth decode (some r) now (some h) handler) = 403) ∧
    (∀ (α : Type) (decode : String → Option JwtToken) (r : String)
        (now : Nat) (h : String) (handler : JwtClaims → α) (c : JwtClaims),
        jwtVerify JWT_SECRET now (((splitSp h).get? 1).bind decode) = .ok c →
        c.role = r →
        auth decode (some r) now (some h) handler = .handled c (handler c)) ∧
    (auth (fun s => if s == "ctok" then some consumerTok else none) (some "Creator") 10
        (some "Bearer ctok") (fun c => c) = .forbidden) ∧
    (auth (fun s => if s == "ktok" then some creatorTok else none) (some "Creator") 10
        (some "Bearer ktok") (fun c => c) =
      .handled ⟨9, "Creator", 3600⟩ ⟨9, "Creator", 3600⟩) := by
  refine ⟨?_, ?_, ?_, ?_, by decide, by decide⟩
  · intro α decode requiredRole now handler
    exact ⟨rfl, rfl⟩
  · intro α decode requiredRole now h handler hv
    have e : auth decode requiredRole now (some h) handler = .invalidToken := by
      simp only [auth]
      rw [hv]
    rw [e]
    exact ⟨rfl, rfl⟩
  · intro α decode r now h handler c hv hne
    have e : auth decode (some r) now (some h) handler = .forbidden := by
      simp only [auth]
      rw [hv]
      simp [hne]
    rw [e]
    exact ⟨rfl, rfl⟩
  · intro α decode r now h handler c hv hr
    simp only [auth]
    rw [hv]
    simp [hr]

/-- Witness for C2: concrete guarded requests exercising the 401 branch on a
rejected token and the 403 branch on a validated Consumer token where a
Creator is required. -/
theorem C2_guard_witness :
    (auth (fun _ => none) (some "Creator") 5 (some "Bearer junk") (fun c => c.id) =
      .invalidToken ∧
     guardStatus (auth (fun _ => none) (some "Creator") 5 (some "Bearer junk")
        (fun c => c.id)) = 401) ∧
    (auth (fun s => if s == "ctok" then some consumerTok else none) (some "Creator") 10
        (some "Bearer ctok") (fun c => c.id) = .forbidden ∧
     guardStatus (auth (fun s => if s == "ctok" then some consumerTok else none)
        (some "Creator") 10 (some "Bearer ctok") (fun c => c.id)) = 403) :=
  ⟨C2_guard.2.1 Nat (fun _ => none) (some "Creator") 5 "Bearer junk" (fun c => c.id)
      (by decide),
   C2_guard.2.2.1 Nat (fun s => if s == "ctok" then some consumerTok else none) "Creator"
      10 "Bearer ctok" (fun c => c.id) ⟨7, "Consumer", 3600⟩ (by decide) (by decide)⟩

/-- C5: a token issued at `now0` validates with the issuing key at any time
strictly before its expiry `now0 + 3600`, yielding the issued identity and
role; validation returns Invalid exactly when the raw token is structurally
malformed, its signature is not the key's signature over exactly its claims,
or its expiry has elapsed; in particular keeping the signature while altering
the claims in any way, or keeping the claims while altering the signature in
any way, makes validation fail. -/
theorem C5_token_lifecycle :
    (∀ (key : String) (now0 now id : Nat) (role : String), now < now0 + 3600 →
        jwtVerify key now (some (jwtSign key now0 id role)) =
          .ok ⟨id, role, now0 + 3600⟩) ∧
    (∀ (key : String) (now : Nat) (t : Option JwtToken),
        jwtVerify key now t = .invalid ↔
          t = none ∨ ∃ tok, t = some tok ∧
            (tok.sig ≠ (⟨key, tok.claims⟩ : JwtSig) ∨ tok.claims.exp ≤ now)) ∧
    (∀ (key : String) (now0 now id : Nat) (role : String) (c : JwtClaims),
        c ≠ (jwtSign key now0 id role).claims →
        jwtVerify key now (some ⟨c, (jwtSign key now0 id role).sig⟩) = .invalid) ∧
    (∀ (key : String) (now0 now id : Nat) (role : String) (s : JwtSig),
        s ≠ (jwtSign key now0 id role).sig →
        jwtVerify key now (some ⟨(jwtSign key now0 id role).claims, s⟩) = .invalid) := by
  refine ⟨?_, ?_, ?_, ?_⟩
  · intro key now0 now id role hlt
    simp [jwtVerify, jwtSign, hlt]
  · intro key now t
    cases t with
    | none => simp [jwtVerify]
    | some tok =>
      by_cases hs : tok.sig = (⟨key, tok.claims⟩ : JwtSig)
      · by_cases he : now < tok.claims.exp
        · simp [jwtVerify, hs, he]
          try omega
        · simp [jwtVerify, hs, he]
          try omega
      · simp [jwtVerify, hs]
  · intro key now0 now id role c hc
    have hne : (⟨key, ⟨id, role, now0 + 3600⟩⟩ : JwtSig) ≠ (⟨key, c⟩ : JwtSig) := by
      intro he
      exact hc (by cases (JwtSig.mk.injEq _ _ _ _).mp he with
        | intro h1 h2 => exact h2.symm ▸ rfl)
    simp [jwtVerify, jwtSign, hne]
  · intro key now0 now id role s hs
    simp only [jwtSign] at hs ⊢
    simp [jwtVerify, hs]

/-- Witness for C5: a concrete issue/validate roundtrip before expiry, a
concrete tampered-claims rejection and a concrete tampered-signature
rejection. -/
theorem C5_token_lifecycle_witness :
    jwtVerify "k" 10 (some (jwtSign "k" 0 1 "Creator")) = .ok ⟨1, "Creator", 0 + 3600⟩ ∧
    jwtVerify "k" 10 (some ⟨⟨2, "Creator", 3600⟩, (jwtSign "k" 0 1 "Creator").sig⟩) =
      .invalid ∧
    jwtVerify "k" 10 (some ⟨(jwtSign "k" 0 1 "Creator").claims, ⟨"k2", ⟨1, "Creator", 3600⟩⟩⟩) =
      .invalid :=
  ⟨C5_token_lifecycle.1 "k" 0 10 1 "Creator" (by decide),
   C5_token_lifecycle.2.2.1 "k" 0 10 1 "Creator" ⟨2, "Creator", 3600⟩ (by decide),
   C5_token_lifecycle.2.2.2 "k" 0 10 1 "Creator" ⟨"k2", ⟨1, "Creator", 3600⟩⟩ (by decide)⟩

/-- C3 counterexample: the claim says a failing login responds 401, but a
variant-2 login against the empty user table fails with "User not found" and
status 400, not 401. -/
theorem C3_counterexample :
    login_v2 emptyDB "alice@example.com" "pw" 0 = .userNotFound ∧
    loginStatus (login_v2 emptyDB "alice@example.com" "pw" 0) = 400 ∧
    loginStatus (login_v2 emptyDB "alice@example.com" "pw" 0) ≠ 401 := by
  refine ⟨rfl, rfl, by decide⟩

/-- C3 (amended): variant-1 login succeeds iff a user row matches the trimmed
lowercased email under CI collation with the stored password equal to the
trimmed supplied password, and a failing variant-1 login responds 401; emails
equal up to trimming and letter case (in particular, differing only in letter
case) give identical outcomes in both variants; a failing variant-2 login
responds 400, and variant-2 login succeeds iff the first row matching the
email case-insensitively exists and the password bcrypt-verifies against that
row's stored representation. -/
theorem C3_login (db : DB) (email email2 password : String) (now : Nat) :
    ((∃ u ∈ db.users, ciEq u.email (emailKey email) = true ∧
        u.passwordHash = trimStr password) ↔
      ∃ t r, login_v1 db email password now = .ok t r) ∧
    ((∀ t r, login_v1 db email password now ≠ .ok t r) →
      loginStatus (login_v1 db email password now) = 401) ∧
    (emailKey email = emailKey email2 →
      login_v1 db email password now = login_v1 db email2 password now) ∧
    (lowerStr email = lowerStr email2 →
      login_v2 db email password now = login_v2 db email2 password now) ∧
    ((∀ t r, login_v2 db email password now ≠ .ok t r) →
      loginStatus (login_v2 db email password now) = 400) ∧
    ((∃ u, db.users.find? (fun v => ciEq v.email email) = some u ∧
        bcryptCompare password u.passwordHash = true) ↔
      ∃ t r, login_v2 db email password now = .ok t r) := by
  refine ⟨?_, ?_, ?_, ?_, ?_, ?_⟩
  · constructor
    · rintro ⟨u, hu, h1, h2⟩
      have hp : loginMatch_v1 email password u = true := by
        simp [loginMatch_v1, h1, h2]
      have hsome : (db.users.find? (loginMatch_v1 email password)).isSome :=
        List.find?_isSome.mpr ⟨u, hu, hp⟩
      obtain ⟨v, hv⟩ := Option.isSome_iff_exists.mp hsome
      exact ⟨jwtSign JWT_SECRET now v.userID v.role, v.role, by simp [login_v1, hv]⟩
    · rintro ⟨t, r, ht⟩
      unfold login_v1 at ht
      cases hf : db.users.find? (loginMatch_v1 email password) with
      | none => rw [hf] at ht; simp at ht
      | some u =>
        have hm : u ∈ db.users := List.mem_of_find?_eq_some hf
        have hp : loginMatch_v1 email password u = true := List.find?_some hf
        simp only [loginMatch_v1, Bool.and_eq_true, beq_iff_eq] at hp
        exact ⟨u, hm, hp.1, hp.2⟩
  · intro hno
    cases hf : db.users.find? (loginMatch_v1 email password) with
    | none => simp [loginStatus, login_v1, hf]
    | some u =>
      exact absurd (by simp [login_v1, hf])
        (hno (jwtSign JWT_SECRET now u.userID u.role) u.role)
  · intro h
    have hp : loginMatch_v1 email password = loginMatch_v1 email2 password := by
      funext u
      simp [loginMatch_v1, h]
    simp only [login_v1, hp]
  · intro h
    have hp : (fun (v : UserRow) => ciEq v.email email) =
        (fun (v : UserRow) => ciEq v.email email2) := by
      funext v
      simp [ciEq, h]
    simp only [login_v2, hp]
  · intro hno
    cases hf : db.users.find? (fun v => ciEq v.email email) with
    | none => simp [loginStatus, login_v2, hf]
    | some u =>
      cases hc : bcryptCompare password u.passwordHash with
      | false => simp [loginStatus, login_v2, hf, hc]
      | true =>
        exact absurd (by simp [login_v2, hf, hc])
          (hno (jwtSign JWT_SECRET now u.userID u.role) u.role)
  · constructor
    · rintro ⟨u, hu, hc⟩
      exact ⟨jwtSign JWT_SECRET now u.userID u.role, u.role, by simp [login_v2, hu, hc]⟩
    · rintro ⟨t, r, ht⟩
      unfold login_v2 at ht
      cases hf : db.users.find? (fun v => ciEq v.email email) with
      | none => rw [hf] at ht; simp at ht
      | some u =>
        rw [hf] at ht
        cases hc : bcryptCompare password u.passwordHash with
        | false => simp [hc] at ht
        | true => exact ⟨u, rfl, hc⟩

/-- Witness for C3: the registered user logs in identically under a
differently cased padded email, and a wrong password yields status 401, in
variant 1. -/
theorem C3_login_witness :
    login_v1 dbWithBob " BOB@x.Com " "pw" 7 = login_v1 dbWithBob "bob@x.com" "pw" 7 ∧
    loginStatus (login_v1 dbWithBob "bob@x.com" "nope" 7) = 401 :=
  ⟨(C3_login dbWithBob " BOB@x.Com " "bob@x.com" "pw" 7).2.2.1 (by decide),
   (C3_login dbWithBob "bob@x.com" "bob@x.com" "nope" 7).2.1 (by
      intro t r h
      have e : login_v1 dbWithBob "bob@x.com" "nope" 7 = .invalidCredentials := by decide
      rw [e] at h
      exact LoginResult.noConfusion h)⟩

/-- C4 counterexample: the claim says a signup whose email matches an existing
user case-insensitively fails with Conflict and creates no user, but the
variant-2 signup handler has no duplicate check: with `bob@x.com` registered,
signing up as `BOB@X.COM` answers success and inserts a second user row. -/
theorem C4_counterexample :
    ciEq "BOB@X.COM" "bob@x.com" = true ∧
    (signup_v2 dbWithBob 2 "Bobby" "BOB@X.COM" "pw2" "salt").1 = .registered ∧
    (signup_v2 dbWithBob 2 "Bobby" "BOB@X.COM" "pw2" "salt").2.users.length =
      dbWithBob.users.length + 1 := by
  refine ⟨by decide, rfl, by decide⟩

/-- C4 (amended): in the variant-1 handler (and the identical variant-3 one),
a signup whose email matches an existing user case-insensitively fails with
Conflict (status 400) and inserts nothing; a signup with a fresh email inserts
exactly one user row with role Consumer; and after such a signup, a second
signup with the same email in any letter casing fails with Conflict. The
variant-2 handler performs no duplicate check and inserts unconditionally. -/
theorem C4_signup (db : DB) (newId newId2 : Nat) (name name2 email email2 pw pw2 : String) :
    ((∃ u ∈ db.users, ciEq u.email (lowerStr email) = true) →
      signup_v1 db newId name email pw = (.conflict, db) ∧
      signupStatus (signup_v1 db newId name email pw).1 = 400) ∧
    ((∀ u ∈ db.users, ciEq u.email (lowerStr email) = false) →
      signup_v1 db newId name email pw =
        (.registered,
         { db with users := db.users ++ [⟨newId, name, lowerStr email, pw, "Consumer"⟩] })) ∧
    ((∀ u ∈ db.users, ciEq u.email (lowerStr email) = false) →
      lowerStr email2 = lowerStr email →
      (signup_v1 (signup_v1 db newId name email pw).2 newId2 name2 email2 pw2).1 =
        .conflict) := by
  have anyFalse : (∀ u ∈ db.users, ciEq u.email (lowerStr email) = false) →
      db.users.any (fun u => ciEq u.email (lowerStr email)) = false := by
    intro hall
    cases hA : db.users.any (fun u => ciEq u.email (lowerStr email)) with
    | false => rfl
    | true =>
      rcases List.any_eq_true.mp hA with ⟨u, hu, hp⟩
      rw [hall u hu] at hp
      cases hp
  refine ⟨?_, ?_, ?_⟩
  · rintro ⟨u, hu, hc⟩
    have ha : db.users.any (fun u => ciEq u.email (lowerStr email)) = true :=
      List.any_eq_true.mpr ⟨u, hu, hc⟩
    constructor
    · simp [signup_v1, ha]
    · simp [signup_v1, ha, signupStatus]
  · intro hall
    simp [signup_v1, anyFalse hall]
  · intro hall h2
    have hdb : (signup_v1 db newId name email pw).2 =
        { db with users := db.users ++ [⟨newId, name, lowerStr email, pw, "Consumer"⟩] } := by
      simp [signup_v1, anyFalse hall]
    rw [hdb]
    have hrow : ciEq (lowerStr email) (lowerStr email2) = true := by
      simp [ciEq, h2]
    have ha2 : (db.users ++ [(⟨newId, name, lowerStr email, pw, "Consumer"⟩ : UserRow)]).any
        (fun u => ciEq u.email (lowerStr email2)) = true := by
      rw [List.any_append]
      simp [hrow]
    simp [signup_v1, ha2]

/-- Witness for C4: with `bob@x.com` registered, a differently cased signup
for the same address conflicts with status 400 and leaves the store unchanged. -/
theorem C4_signup_witness :
    signup_v1 dbWithBob 5 "B" "Bob@X.Com" "p" = (.conflict, dbWithBob) ∧
    signupStatus (signup_v1 dbWithBob 5 "B" "Bob@X.Com" "p").1 = 400 :=
  (C4_signup dbWithBob 5 0 "B" "" "Bob@X.Com" "" "p" "").1 (by decide)

/-- C8 counterexample: the claim says avgRating equals the simple average of
all rating rows, but `AVG` over the INT `Rating` column truncates: with rating
rows [3, 4] for video 1 the handler returns avgRating 3 while the simple
average of those rows is 7/2 = 3.5. -/
theorem C8_counterexample :
    getRatings ratingsDB34 1 = ⟨some 3, 2⟩ ∧
    ((3 : ℚ) ≠ ((ratingsOf ratingsDB34 1).sum : ℚ) / ((ratingsOf ratingsDB34 1).length : ℚ)) := by
  constructor
  · decide
  · have hs : (ratingsOf ratingsDB34 1).sum = 7 := by decide
    have hl : (ratingsOf ratingsDB34 1).length = 2 := by decide
    rw [hs, hl]
    norm_num

/-- C8 (amended): getRatings returns totalRatings equal to the number of
rating rows for the video (every row, including repeat ratings by one user),
and avgRating equal to NULL on no rows and otherwise to the integer-truncated
average of all rows (sum divided by count, truncated toward zero, as T-SQL
`AVG` over an INT column computes); in particular ratings [3, 5] yield
avgRating 4 and totalRatings 2. -/
theorem C8_ratings (db : DB) (videoId : Nat) :
    (getRatings db videoId).totalRatings = (ratingsOf db videoId).length ∧
    (ratingsOf db videoId = [] → (getRatings db videoId).avgRating = none) ∧
    (ratingsOf db videoId ≠ [] →
      (getRatings db videoId).avgRating =
        some (Int.tdiv (ratingsOf db videoId).sum (ratingsOf db videoId).length)) ∧
    getRatings ratingsDB35 1 = ⟨some 4, 2⟩ := by
  refine ⟨rfl, ?_, ?_, by decide⟩
  · intro h
    simp [getRatings, h]
  · intro h
    have hl : (ratingsOf db videoId).length ≠ 0 := by
      simpa [List.length_eq_zero] using h
    simp [getRatings, hl]

/-- Witness for C8: the rows [3, 4] are nonempty, and the handler's avgRating
is the truncated integer average of their sum over their count. -/
theorem C8_ratings_witness :
    (getRatings ratingsDB34 1).avgRating =
      some (Int.tdiv (ratingsOf ratingsDB34 1).sum (ratingsOf ratingsDB34 1).length) :=
  (C8_ratings ratingsDB34 1).2.2.1 (by decide)

/-- C9 counterexample: the claim says getVideos returns rows ordered by upload
timestamp descending, but after a variant-1 upload at time 10 ("A") and a
variant-2 upload at time 20 ("B") the listing is ["A", "B"]: the row uploaded
later sorts last, because the variant-2 insert stored no UploadedAt and its
NULL sorts below every timestamp, so the result is not newest-first. -/
theorem C9_counterexample :
    (getVideos mixedSys.db).map (fun v => v.title) = ["A", "B"] ∧
    (getVideos mixedSys.db).map (fun v => v.uploadedAt) = [some 10, none] ∧
    (getVideos mixedSys.db).map (fun v => v.title) ≠ ["B", "A"] := by
  refine ⟨by decide, by decide, by decide⟩

/-- C9 (amended): getVideos returns exactly the Video rows (a permutation),
ordered by the stored UploadedAt column descending with NULL as the lowest
value, and getComments (variant 1) returns exactly the join rows of the given
video, ordered by the stored CreatedAt column descending; the variant-1 upload
stamps UploadedAt with the upload time — so listings of rows written only by
variant 1 are newest-first — while the variant-2 upload leaves UploadedAt
NULL, so its rows sort last regardless of when they were uploaded. -/
theorem C9_ordering (db : DB) (videoId : Nat) (sys : Sys) (user : JwtClaims)
    (req : UploadReq) (now : Nat) :
    (getVideos db).Pairwise (fun a b => tsLE b.uploadedAt a.uploadedAt = true) ∧
    (getVideos db).Perm db.videos ∧
    (getComments db videoId).Pairwise (fun a b => tsLE b.createdAt a.createdAt = true) ∧
    (getComments db videoId).Perm (commentJoin db videoId) ∧
    (upload_v1 sys user req now true true).2.db.videos =
      sys.db.videos ++ [⟨req.title, req.publisher, req.producer, req.genre, req.ageRating,
        blobUrlOf req.fileName, user.id, some now⟩] ∧
    (upload_v2 sys user req now true true).2.db.videos =
      sys.db.videos ++ [⟨req.title, req.publisher, req.producer, req.genre, req.ageRating,
        blobUrlOf req.fileName, user.id, none⟩] := by
  refine ⟨?_, ?_, ?_, ?_, rfl, rfl⟩
  · exact pairwise_sortBy
      (fun a b => tsLE_total b.uploadedAt a.uploadedAt)
      (fun a b c hab hbc => tsLE_trans c.uploadedAt b.uploadedAt a.uploadedAt hbc hab)
      db.videos
  · exact perm_sortBy _ db.videos
  · exact pairwise_sortBy
      (fun a b => tsLE_total b.createdAt a.createdAt)
      (fun a b c hab hbc => tsLE_trans c.createdAt b.createdAt a.createdAt hbc hab)
      (commentJoin db videoId)
  · exact perm_sortBy _ (commentJoin db videoId)

end EchoVid
